import Mathlib

/-!
Shallow embedding of the pgvector integration of this repository
(`src/swiftide-integrations/src/pgvector/`): the field model and builder
(`mod.rs`), the persistence operations (`persist.rs`) and the retrieval
operation (`retrieve.rs`).

Rust strings are modelled as Lean `String`s; character-level operations
(splitting, trimming) are modelled on `List Char`, matching Rust's
`str::split(char)` / `str::trim` / `str::trim_matches(char)` semantics.
`f32` embedding entries are never inspected by this code — they only flow
through to the database driver — so they are carried as raw bit patterns.
Fallible Rust functions returning `anyhow::Result` are modelled as
`Except String`, the error being the message. Database execution is an
external collaborator and is abstracted as an explicit function argument;
each operation additionally returns the list of statements it actually
executed, so that "no statement was executed" is expressible.
-/

namespace Swiftide

/-- Raw bit pattern of an `f32` embedding entry; the store never computes
with these values, it only passes them through as bound parameters. -/
abbrev F32 := Nat

/-- Modelled from the spec: `VectorConfig` lives in `pgv_table_types.rs`,
which is not under `src/`. Per section 3, a vector field has a logical
name (the embedded field) and an optional dimension of its own. -/
structure VectorConfig where
  embedded_field : String
  size : Option Int
deriving DecidableEq, Repr

/-- Modelled from the spec: `MetadataConfig` lives in
`pgv_table_types.rs`, which is not under `src/`. Per section 3, a
metadata field is keyed by a single key. -/
structure MetadataConfig where
  field : String
deriving DecidableEq, Repr

/-- Modelled from the spec: the `FieldConfig` tagged variant lives in
`pgv_table_types.rs`, which is not under `src/`; the variants `ID`,
`Chunk`, `Vector` and `Metadata` are exactly the ones `mod.rs`
constructs (`default_fields`, `with_vector`, `with_metadata`). -/
inductive FieldConfig where
  | ID
  | Chunk
  | Vector (cfg : VectorConfig)
  | Metadata (cfg : MetadataConfig)
deriving DecidableEq, Repr

/-- Character-level normalization underlying `normalize_field_name`:
lower-case alphanumeric characters, replace everything else. -/
def normalizeChars (l : List Char) : List Char :=
  l.map (fun c => if c.isAlphanum then c.toLower else '_')

/-- Modelled from the spec: `PgVector::normalize_field_name` lives in
`pgv_table_types.rs`, which is not under `src/`. Per section 4.1, names
are normalized by lower-casing and replacing non-alphanumeric
characters. -/
def normalize_field_name (s : String) : String :=
  String.mk (normalizeChars s.toList)

/-- Modelled from the spec: `FieldConfig::field_name` lives in
`pgv_table_types.rs`, which is not under `src/`. The identity and content
columns are named `id` and `chunk` — the shape `retrieve.rs` reads back
through `VectorSearchResult` — vector columns take the normalized vector
name, and metadata columns carry the `meta_` prefix visible in the filter
synthesis of `retrieve.rs` (section 4.1). -/
def field_name : FieldConfig → String
  | .ID => "id"
  | .Chunk => "chunk"
  | .Vector v => normalize_field_name v.embedded_field
  | .Metadata m => "meta_" ++ normalize_field_name m.field

/-- Default batch size, `DEFAULT_BATCH_SIZE` in `mod.rs`. -/
def DEFAULT_BATCH_SIZE : Nat := 50

/-- The `PgVector` configuration struct of `mod.rs`. The connection pool
is an external collaborator; only whether it has been initialized is
observable to this code, so that is what we record. -/
structure PgVector where
  pool_initialized : Bool
  table_name : String
  vector_size : Option Int
  batch_size : Option Nat
  fields : List FieldConfig
deriving DecidableEq, Repr

/-- Modelled from the spec: `PgDBConnectionPool::get_pool`, reached from
`PgVector::get_pool` in `mod.rs`, lives in `pgv_table_types.rs`, which is
not under `src/`. Per section 6 it yields the handle or fails with a
"pool not initialized" connection error. -/
def PgVector.get_pool (self : PgVector) : Except String Unit :=
  if self.pool_initialized then .ok () else .error "pool not initialized"

/-- Modelled from the spec: `PgVector::get_vector_column_name` lives in
`pgv_table_types.rs`, which is not under `src/`. Per section 4.4 step 1
it resolves the physical column name of the configured vector field and
fails when no vector field is configured. -/
def PgVector.get_vector_column_name (self : PgVector) : Except String String :=
  match self.fields.find? (fun f => match f with | .Vector _ => true | _ => false) with
  | some f => .ok (field_name f)
  | none => .error "No vector field configured"

/-- The derive_builder-generated `PgVectorBuilder` of `mod.rs`: every
field is unset (`none`) until its setter runs. -/
structure PgVectorBuilder where
  connection_pool : Option Bool
  table_name : Option String
  vector_size : Option (Option Int)
  batch_size : Option (Option Nat)
  fields : Option (List FieldConfig)
deriving DecidableEq, Repr

/-- The `PgVector::builder()` constructor of `mod.rs`: the all-unset
default builder. -/
def PgVector.builder : PgVectorBuilder :=
  ⟨none, none, none, none, none⟩

/-- The `PgVectorBuilder::default_fields` helper of `mod.rs`. -/
def PgVectorBuilder.default_fields : List FieldConfig :=
  [.ID, .Chunk]

/-- The `PgVectorBuilder::with_vector` method of `mod.rs`: initialize
`fields` with `default_fields` when it is still unset, then push the
vector field. -/
def PgVectorBuilder.with_vector (self : PgVectorBuilder) (config : VectorConfig) :
    PgVectorBuilder :=
  { self with
    fields := some ((self.fields.getD PgVectorBuilder.default_fields) ++ [.Vector config]) }

/-- The `PgVectorBuilder::with_metadata` method of `mod.rs`: initialize
`fields` with `default_fields` when it is still unset, then push the
metadata field. -/
def PgVectorBuilder.with_metadata (self : PgVectorBuilder) (config : MetadataConfig) :
    PgVectorBuilder :=
  { self with
    fields := some ((self.fields.getD PgVectorBuilder.default_fields) ++ [.Metadata config]) }

/-- The derive_builder-generated `PgVectorBuilder::build`, following the
attributes in `mod.rs`: `connection_pool` defaults to an uninitialized
pool, `table_name` to `"swiftide_pgv_store"`, `batch_size` to
`Some(DEFAULT_BATCH_SIZE)` and `fields` to the empty vector, while
`vector_size` carries no default and must have been set. -/
def PgVectorBuilder.build (self : PgVectorBuilder) : Except String PgVector :=
  match self.vector_size with
  | none => .error "vector_size must be initialized"
  | some vs =>
    .ok
      { pool_initialized := self.connection_pool.getD false
        table_name := self.table_name.getD "swiftide_pgv_store"
        vector_size := vs
        batch_size := self.batch_size.getD (some DEFAULT_BATCH_SIZE)
        fields := self.fields.getD [] }

/-! Retrieval (`retrieve.rs`). -/

/-- Rust `str::split('=')` at character level: the pieces between the
occurrences of `c`, empty pieces kept, so there is always exactly one more
piece than there are occurrences of `c`. -/
def splitOnChar (c : Char) : List Char → List (List Char)
  | [] => [[]]
  | x :: xs =>
    match splitOnChar c xs with
    | [] => [[]]
    | r :: rs => if x = c then [] :: r :: rs else (x :: r) :: rs

/-- Strip characters satisfying `p` from both ends of a list, the shared
shape of Rust `str::trim` and `str::trim_matches`. -/
def trimBy (p : Char → Bool) (l : List Char) : List Char :=
  ((l.dropWhile p).reverse.dropWhile p).reverse

/-- Rust `str::trim` on a character list. -/
def trimWs (l : List Char) : List Char :=
  trimBy Char.isWhitespace l

/-- Rust `str::trim_matches('"')` on a character list. -/
def trimQuotes (l : List Char) : List Char :=
  trimBy (fun c => c = '"') l

/-- The filter parsing of `retrieve` (`retrieve.rs`, lines 50–53): split
the whole filter string on `=`, accept exactly two parts, trim whitespace
from both parts and surrounding quotes from the value. -/
def parseFilter (filter : List Char) : Option (List Char × List Char) :=
  match splitOnChar '=' filter with
  | [k, v] => some (trimWs k, trimQuotes (trimWs v))
  | _ => none

/-- The `WHERE` clause built for an accepted filter (`retrieve.rs`, lines
60–65): equality on key `key` of the JSON metadata column
`meta_<normalized key>`. -/
def whereClause (key value : List Char) : String :=
  " WHERE meta_" ++ String.mk (normalizeChars key) ++ "->>'" ++ String.mk key
    ++ "' = '" ++ String.mk value ++ "'"

/-- The optional-filter handling of `retrieve` (`retrieve.rs`, lines
49–70): no filter contributes nothing to the statement; a filter that
does not split into exactly two parts is rejected with the error of
line 68. -/
def filterFragment : Option (List Char) → Except String String
  | none => .ok ""
  | some f =>
    match parseFilter f with
    | some (k, v) => .ok (whereClause k v)
    | none => .error "Invalid filter format"

/-- Rust `i32::try_from` on a `u64` (`retrieve.rs`, line 80): succeeds
exactly when the value fits a signed 32-bit integer. -/
def i32_try_from (n : Nat) : Option Int :=
  if n < 2 ^ 31 then some (n : Int) else none

/-- Modelled from the spec: `SimilaritySingleEmbedding` lives in
`swiftide-core`, outside `src/`; per section 4.4 it carries the `topK`
row limit (a `u64`, modelled as `Nat`) and an optional string filter. -/
structure SimilaritySingleEmbedding where
  top_k : Nat
  filter : Option (List Char)
deriving DecidableEq, Repr

/-- Modelled from the spec: `Query<Pending>` lives in `swiftide-core`,
outside `src/`; per section 4.4 a pending query has an optional embedding
and no result documents yet. -/
structure PendingQuery where
  original : String
  embedding : Option (List F32)
deriving DecidableEq, Repr

/-- Modelled from the spec: `Query<Retrieved>` lives in `swiftide-core`,
outside `src/`; per section 4.4 a retrieved query holds the ordered
result documents. -/
structure RetrievedQuery where
  original : String
  documents : List String
deriving DecidableEq, Repr

/-- Modelled from the spec: `Query::retrieved_documents` lives in
`swiftide-core`, outside `src/`; it is the `Pending` to `Retrieved`
transition attaching the ordered documents (section 4.4). -/
def PendingQuery.retrieved_documents (q : PendingQuery) (docs : List String) :
    RetrievedQuery :=
  ⟨q.original, docs⟩

/-- The row shape `retrieve` reads back from the database
(`retrieve.rs`, lines 12–16). -/
structure VectorSearchResult where
  id : Nat
  chunk : String
deriving DecidableEq, Repr

/-- One executed parameterized statement: the SQL text and the two bound
parameters, the query embedding at `$1` and the row limit at `$2`. -/
structure DbCall where
  sql : String
  bound_embedding : List F32
  bound_limit : Int
deriving DecidableEq, Repr

/-- The statement synthesis of `retrieve` (`retrieve.rs`, lines 36–47 and
72–76): select the default columns — always the `default_fields` of the
builder, independently of the configured field list — from the configured
table, append the optional filter fragment, and order by the distance
between the vector column and the bound embedding, limited by the bound
row count. -/
def retrieveSql (self : PgVector) (vector_column_name frag : String) : String :=
  "SELECT " ++ String.intercalate ", " (PgVectorBuilder.default_fields.map field_name)
    ++ " FROM " ++ self.table_name ++ frag ++ " ORDER BY " ++ vector_column_name
    ++ " <=> $1 LIMIT $2"

/-- The `retrieve` implementation (`retrieve.rs`, lines 22–92), with
statement execution abstracted as `db`. Returns the call's result
together with the list of statements actually executed, in order. -/
def retrieve (self : PgVector) (db : DbCall → Except String (List VectorSearchResult))
    (search_strategy : SimilaritySingleEmbedding) (query_state : PendingQuery) :
    Except String RetrievedQuery × List DbCall :=
  match query_state.embedding with
  | none => (.error "No embedding for query", [])
  | some embedding =>
    match self.get_pool with
    | .error e => (.error e, [])
    | .ok _ =>
      match self.get_vector_column_name with
      | .error e => (.error e, [])
      | .ok vector_column_name =>
        match filterFragment search_strategy.filter with
        | .error e => (.error e, [])
        | .ok frag =>
          match i32_try_from search_strategy.top_k with
          | none => (.error "Failed to convert top_k to i32", [])
          | some top_k =>
            match db ⟨retrieveSql self vector_column_name frag, embedding, top_k⟩ with
            | .error e =>
              (.error e, [⟨retrieveSql self vector_column_name frag, embedding, top_k⟩])
            | .ok data =>
              (.ok (query_state.retrieved_documents
                  (data.map VectorSearchResult.chunk)),
                [⟨retrieveSql self vector_column_name frag, embedding, top_k⟩])

/-! Persistence (`persist.rs`). -/

/-- A node — Modelled from the spec: `Node` comes from `swiftide-core`,
outside `src/`; per section 3 it carries an identifier, a content string,
named embedding vectors and metadata key/value pairs. `store` and
`batch_store` never inspect it. -/
structure Node where
  id : Option Nat
  chunk : String
  vectors : List (String × List F32)
  metadata : List (String × String)
deriving DecidableEq, Repr

/-- Modelled from the spec: the conversion of a `Result<Vec<Node>>` into
an `IndexingStream` lives in `swiftide-core`, outside `src/`; per
section 4.3 a success yields each stored node in input order and a
failure surfaces the single persist error with no nodes. -/
def IndexingStream.ofResult : Except String (List Node) → List (Except String Node)
  | .ok nodes => nodes.map .ok
  | .error e => [.error e]

/-- The `store` implementation (`persist.rs`, lines 36–43): build the
one-element vector, pass it by reference to `store_nodes` (the underlying
write, abstracted as a function argument), and hand the element back on
success. -/
def store (store_nodes : List Node → Except String Unit) (node : Node) :
    Except String Node :=
  match store_nodes [node] with
  | .ok _ => .ok node
  | .error e => .error e

/-- The `batch_store` implementation (`persist.rs`, lines 46–48):
`store_nodes(&nodes).map(|()| nodes).into()`. -/
def batch_store (store_nodes : List Node → Except String Unit) (nodes : List Node) :
    List (Except String Node) :=
  IndexingStream.ofResult ((store_nodes nodes).map (fun _ => nodes))

/-- The `setup` implementation (`persist.rs`, lines 15–33) over an
explicit transactional database model: `schema` is the committed schema
state, `applyStmt` executes one statement against an uncommitted state
inside the open transaction, and the transaction's effects reach the
committed state only through the final `commit` — a failure drops the
transaction, so the committed state stays as it was. `gen_table` and
`gen_index` abstract `generate_create_table_sql` and `create_index_sql`
(both live in `pgv_table_types.rs`, outside `src/`, and are only run for
their result here). Returns the call's result, the committed schema state
after the call, and the statements executed inside the transaction, in
order. -/
def setup {σ : Type} (applyStmt : σ → String → Except String σ) (schema : σ)
    (pool : Except String Unit) (gen_table gen_index : Except String String) :
    Except String Unit × σ × List String :=
  match pool with
  | .error e => (.error e, schema, [])
  | .ok _ =>
    match applyStmt schema "CREATE EXTENSION IF NOT EXISTS vector" with
    | .error e => (.error e, schema, ["CREATE EXTENSION IF NOT EXISTS vector"])
    | .ok s1 =>
      match gen_table with
      | .error e => (.error e, schema, ["CREATE EXTENSION IF NOT EXISTS vector"])
      | .ok table_sql =>
        match applyStmt s1 table_sql with
        | .error e =>
          (.error e, schema, ["CREATE EXTENSION IF NOT EXISTS vector", table_sql])
        | .ok s2 =>
          match gen_index with
          | .error e =>
            (.error e, schema, ["CREATE EXTENSION IF NOT EXISTS vector", table_sql])
          | .ok index_sql =>
            match applyStmt s2 index_sql with
            | .error e =>
              (.error e, schema,
                ["CREATE EXTENSION IF NOT EXISTS vector", table_sql, index_sql])
            | .ok s3 =>
              (.ok (), s3,
                ["CREATE EXTENSION IF NOT EXISTS vector", table_sql, index_sql])

/-- Sequential execution of a list of statements from a starting state,
stopping at the first failure: the reference semantics the setup theorem
compares the transaction against. -/
def runStmts {σ : Type} (applyStmt : σ → String → Except String σ) :
    σ → List String → Except String σ
  | s, [] => .ok s
  | s, stmt :: rest =>
    match applyStmt s stmt with
    | .ok s2 => runStmts applyStmt s2 rest
    | .error e => .error e

/-- The `batch_size` accessor (`persist.rs`, lines 50–52). -/
def PgVector.batch_size_accessor (self : PgVector) : Option Nat :=
  self.batch_size

/-! Builder call sequences, for the builder-ordering claim. -/

/-- One builder call: either `with_vector` or `with_metadata`
(`mod.rs`). -/
inductive BuilderCall where
  | vector (cfg : VectorConfig)
  | metadata (cfg : MetadataConfig)
deriving DecidableEq, Repr

/-- The field a builder call appends. -/
def BuilderCall.toField : BuilderCall → FieldConfig
  | .vector v => .Vector v
  | .metadata m => .Metadata m

/-- Apply one builder call to a builder. -/
def applyCall (b : PgVectorBuilder) : BuilderCall → PgVectorBuilder
  | .vector v => b.with_vector v
  | .metadata m => b.with_metadata m

/-- Apply a sequence of builder calls, left to right. -/
def applyCalls (b : PgVectorBuilder) (calls : List BuilderCall) : PgVectorBuilder :=
  calls.foldl applyCall b

/-- A sample store configuration used to exercise the retrieval theorems
on concrete input: one vector field, one metadata field. -/
def sampleConfig : PgVector :=
  ⟨true, "t", none, some 50, [.Vector ⟨"Combined", none⟩, .Metadata ⟨"filter"⟩]⟩

/-- A sample database execution yielding one row. -/
def sampleDb : DbCall → Except String (List VectorSearchResult) :=
  fun _ => .ok [⟨0, "hello"⟩]

/-! Helper lemmas about `splitOnChar`. -/

theorem splitOnChar_cons (c x : Char) (xs : List Char) :
    splitOnChar c (x :: xs)
      = match splitOnChar c xs with
        | [] => [[]]
        | r :: rs => if x = c then [] :: r :: rs else (x :: r) :: rs := rfl

theorem splitOnChar_ne_nil (c : Char) (l : List Char) : splitOnChar c l ≠ [] := by
  cases l with
  | nil => simp [splitOnChar]
  | cons x xs =>
    rw [splitOnChar_cons]
    cases h : splitOnChar c xs with
    | nil => simp
    | cons r rs => by_cases hx : x = c <;> simp [hx]

theorem length_splitOnChar (c : Char) (l : List Char) :
    (splitOnChar c l).length = l.count c + 1 := by
  induction l with
  | nil => simp [splitOnChar]
  | cons x xs ih =>
    rw [splitOnChar_cons]
    cases h : splitOnChar c xs with
    | nil => exact absurd h (splitOnChar_ne_nil c xs)
    | cons r rs =>
      rw [h] at ih
      simp only [List.length_cons] at ih
      by_cases hx : x = c
      · simp [hx, List.count_cons]
        omega
      · simp [hx, List.count_cons, Ne.symm hx]
        omega

theorem splitOnChar_not_mem (c : Char) (l : List Char) (h : c ∉ l) :
    splitOnChar c l = [l] := by
  induction l with
  | nil => rfl
  | cons x xs ih =>
    have hx : x ≠ c := fun e => h (e ▸ List.mem_cons_self x xs)
    have hxs : c ∉ xs := fun m => h (List.mem_cons_of_mem _ m)
    rw [splitOnChar_cons, ih hxs]
    simp [hx]

theorem splitOnChar_append (c : Char) (k v : List Char) (hk : c ∉ k) :
    splitOnChar c (k ++ c :: v) = k :: splitOnChar c v := by
  induction k with
  | nil =>
    rw [List.nil_append, splitOnChar_cons]
    cases h : splitOnChar c v with
    | nil => exact absurd h (splitOnChar_ne_nil c v)
    | cons r rs => simp
  | cons x xs ih =>
    have hx : x ≠ c := fun e => hk (e ▸ List.mem_cons_self x xs)
    have hxs : c ∉ xs := fun m => hk (List.mem_cons_of_mem _ m)
    rw [List.cons_append, splitOnChar_cons, ih hxs]
    simp [hx]

theorem parseFilter_isSome_iff (f : List Char) :
    (parseFilter f).isSome ↔ f.count '=' = 1 := by
  have hlen := length_splitOnChar '=' f
  unfold parseFilter
  cases h : splitOnChar '=' f with
  | nil => exact absurd h (splitOnChar_ne_nil _ f)
  | cons r rs =>
    rw [h] at hlen
    cases rs with
    | nil => simp at hlen ⊢; omega
    | cons r2 rs2 =>
      cases rs2 with
      | nil => simp at hlen ⊢; omega
      | cons r3 rs3 => simp at hlen ⊢; omega

/-! Claim theorems. -/

/-- C1: a filter string is accepted exactly when it contains exactly one
`=` — zero or more than one occurrence, including values containing `=`,
is rejected with the query error, never best-effort parsed. An accepted
filter splits at its one `=` into a whitespace-trimmed key and a
whitespace-trimmed, quote-stripped value, and is translated into an
equality predicate on the JSON metadata column for that key. -/
theorem c1_filter_parsing (f : List Char) :
    ((parseFilter f).isSome ↔ f.count '=' = 1)
    ∧ (∀ k v, f = k ++ '=' :: v → '=' ∉ k → '=' ∉ v →
        parseFilter f = some (trimWs k, trimQuotes (trimWs v)))
    ∧ (∀ k v, parseFilter f = some (k, v) →
        filterFragment (some f) = .ok (whereClause k v))
    ∧ (parseFilter f = none →
        filterFragment (some f) = .error "Invalid filter format") := by
  refine ⟨parseFilter_isSome_iff f, ?_, ?_, ?_⟩
  · intro k v hf hk hv
    subst hf
    unfold parseFilter
    rw [splitOnChar_append '=' k v hk, splitOnChar_not_mem '=' v hv]
  · intro k v h
    simp only [filterFragment]
    rw [h]
  · intro h
    simp only [filterFragment]
    rw [h]

theorem c1_filter_parsing_witness :
    parseFilter ("key=\"val\"".toList) = some ("key".toList, "val".toList) :=
  ((c1_filter_parsing ("key=\"val\"".toList)).2.1 "key".toList "\"val\"".toList
    (by decide) (by decide) (by decide)).trans (by decide)

/-- C2: when the underlying write succeeds, `batch_store` emits exactly
the input nodes, one to one and in input order; when the write fails it
emits the single persist error and no nodes at all. -/
theorem c2_batch_store_stream (store_nodes : List Node → Except String Unit)
    (nodes : List Node) :
    (store_nodes nodes = .ok () → batch_store store_nodes nodes = nodes.map .ok)
    ∧ ∀ e, store_nodes nodes = .error e → batch_store store_nodes nodes = [.error e] := by
  constructor
  · intro h
    unfold batch_store
    rw [h]
    rfl
  · intro e h
    unfold batch_store
    rw [h]
    rfl

theorem c2_batch_store_stream_witness :
    batch_store (fun _ => .ok ()) [⟨none, "a", [], []⟩]
      = ([⟨none, "a", [], []⟩] : List Node).map .ok :=
  (c2_batch_store_stream (fun _ => .ok ()) [⟨none, "a", [], []⟩]).1 rfl

/-- C4: `store node` performs the same underlying write as
`batch_store [node]` — the singleton batch stream is exactly the
one-element stream of `store`'s result — and on success it returns the
very node the singleton batch would yield, while a write failure
surfaces the persist error with no node. -/
theorem c4_store_singleton (store_nodes : List Node → Except String Unit)
    (node : Node) :
    batch_store store_nodes [node] = [store store_nodes node]
    ∧ (store_nodes [node] = .ok () → store store_nodes node = .ok node)
    ∧ ∀ e, store_nodes [node] = .error e → store store_nodes node = .error e := by
  refine ⟨?_, ?_, ?_⟩
  · unfold batch_store store
    cases h : store_nodes [node] with
    | ok u => rfl
    | error e => rfl
  · intro h
    unfold store
    rw [h]
  · intro e h
    unfold store
    rw [h]

theorem c4_store_singleton_witness :
    store (fun _ => .ok ()) ⟨none, "a", [], []⟩ = .ok ⟨none, "a", [], []⟩ :=
  (c4_store_singleton (fun _ => .ok ()) ⟨none, "a", [], []⟩).2.1 rfl

/-- C9: storage never alters the nodes it is handed: a node returned by a
successful `store` is the input node itself, and every node emitted by
`batch_store` is one of the input nodes, unchanged. -/
theorem c9_nodes_unchanged (store_nodes : List Node → Except String Unit)
    (node n : Node) (nodes : List Node) :
    (store store_nodes node = .ok n → n = node)
    ∧ ∀ m, Except.ok m ∈ batch_store store_nodes nodes → m ∈ nodes := by
  constructor
  · intro h
    unfold store at h
    cases heq : store_nodes [node] with
    | ok u =>
      rw [heq] at h
      simpa using h.symm
    | error e =>
      rw [heq] at h
      simp at h
  · intro m hm
    cases heq : store_nodes nodes with
    | ok u =>
      have hb : batch_store store_nodes nodes = nodes.map .ok := by
        unfold batch_store
        rw [heq]
        rfl
      rw [hb] at hm
      simp only [List.mem_map] at hm
      obtain ⟨a, ha, haeq⟩ := hm
      cases haeq
      exact ha
    | error e =>
      have hb : batch_store store_nodes nodes = [.error e] := by
        unfold batch_store
        rw [heq]
        rfl
      rw [hb] at hm
      simp at hm

theorem c9_nodes_unchanged_witness :
    (⟨none, "a", [], []⟩ : Node) = ⟨none, "a", [], []⟩ :=
  (c9_nodes_unchanged (fun _ => .ok ()) ⟨none, "a", [], []⟩ ⟨none, "a", [], []⟩ []).1 rfl

/-- C5: a pending query without an embedding fails with the query error
of `retrieve.rs` line 30 before any statement is executed: the trace is
empty and no retrieved state is produced. -/
theorem c5_missing_embedding (self : PgVector)
    (db : DbCall → Except String (List VectorSearchResult))
    (search_strategy : SimilaritySingleEmbedding) (query_state : PendingQuery)
    (h : query_state.embedding = none) :
    retrieve self db search_strategy query_state
      = (.error "No embedding for query", []) := by
  unfold retrieve
  rw [h]

theorem c5_missing_embedding_witness :
    retrieve sampleConfig sampleDb ⟨10, none⟩ ⟨"q", none⟩
      = (.error "No embedding for query", []) :=
  c5_missing_embedding sampleConfig sampleDb ⟨10, none⟩ ⟨"q", none⟩ rfl

/-- Helper: whatever happens inside `retrieve`, every executed statement
binds exactly the strategy's `top_k` as its row limit. -/
theorem retrieve_trace_bound_limit (self : PgVector)
    (db : DbCall → Except String (List VectorSearchResult))
    (search_strategy : SimilaritySingleEmbedding) (query_state : PendingQuery) :
    (retrieve self db search_strategy query_state).2.map DbCall.bound_limit
      = (retrieve self db search_strategy query_state).2.map
          (fun _ => (search_strategy.top_k : Int)) := by
  unfold retrieve
  split
  · rfl
  split
  · rfl
  split
  · rfl
  split
  · rfl
  split
  · rfl
  rename_i embedding hemb u hpool vcol hvec frag hfilt limit hlim
  have hl : limit = (search_strategy.top_k : Int) := by
    unfold i32_try_from at hlim
    split at hlim
    · exact (Option.some.inj hlim).symm
    · cases hlim
  split
  · simp [hl]
  · simp [hl]

/-- C6: a `topK` that does not fit a signed 32-bit integer makes
`retrieve` fail with the query error, executing nothing — it is never
truncated or clamped — and every statement that is executed binds exactly
the requested `topK` as its row limit. -/
theorem c6_top_k_conversion (self : PgVector)
    (db : DbCall → Except String (List VectorSearchResult))
    (search_strategy : SimilaritySingleEmbedding) (query_state : PendingQuery)
    (emb : List F32) (vcol frag : String)
    (hemb : query_state.embedding = some emb)
    (hpool : self.pool_initialized = true)
    (hvec : self.get_vector_column_name = .ok vcol)
    (hfilt : filterFragment search_strategy.filter = .ok frag) :
    (2 ^ 31 ≤ search_strategy.top_k →
        retrieve self db search_strategy query_state
          = (.error "Failed to convert top_k to i32", []))
    ∧ (retrieve self db search_strategy query_state).2.map DbCall.bound_limit
        = (retrieve self db search_strategy query_state).2.map
            (fun _ => (search_strategy.top_k : Int)) := by
  refine ⟨?_, retrieve_trace_bound_limit self db search_strategy query_state⟩
  intro htop
  have hpoolok : self.get_pool = .ok () := by
    simp [PgVector.get_pool, hpool]
  have hlim : i32_try_from search_strategy.top_k = none := by
    unfold i32_try_from
    rw [if_neg (by omega)]
  simp only [retrieve, hemb, hpoolok, hvec, hfilt, hlim]

theorem c6_top_k_conversion_witness :
    retrieve sampleConfig sampleDb ⟨2 ^ 31, none⟩ ⟨"q", some [1]⟩
      = (.error "Failed to convert top_k to i32", []) :=
  (c6_top_k_conversion sampleConfig sampleDb ⟨2 ^ 31, none⟩ ⟨"q", some [1]⟩
    [1] "combined" "" rfl rfl rfl rfl).1 (le_refl _)

/-- Helper: the synthesized statement always begins with the projection
of the two default columns, whatever the configured field list, the
filter and the vector column are. -/
theorem retrieveSql_take (self : PgVector) (v frag : String) :
    (retrieveSql self v frag).toList.take 22 = "SELECT id, chunk FROM ".toList := by
  unfold retrieveSql
  rw [show ("SELECT "
      ++ String.intercalate ", " (PgVectorBuilder.default_fields.map field_name)
      ++ " FROM ") = "SELECT id, chunk FROM " from by decide]
  show ("SELECT id, chunk FROM ".data ++ self.table_name.data ++ frag.data
      ++ " ORDER BY ".data ++ v.data ++ " <=> $1 LIMIT $2".data).take 22
    = "SELECT id, chunk FROM ".data
  simp only [List.append_assoc]
  rw [show (22 : Nat) = "SELECT id, chunk FROM ".data.length from by decide]
  exact List.take_left _ _

/-- C8: a successful retrieval executed exactly one statement, that
statement's text begins with the projection of only the default identity
and content columns, and the returned documents are exactly the content
strings of the rows the database returned, in the database's order. -/
theorem c8_projection (self : PgVector)
    (db : DbCall → Except String (List VectorSearchResult))
    (search_strategy : SimilaritySingleEmbedding) (query_state : PendingQuery)
    (r : RetrievedQuery) (trace : List DbCall)
    (h : retrieve self db search_strategy query_state = (.ok r, trace)) :
    trace.length = 1
    ∧ trace.map (fun c => c.sql.toList.take 22) = ["SELECT id, chunk FROM ".toList]
    ∧ trace.map (fun c => (db c).map (List.map VectorSearchResult.chunk))
        = [.ok r.documents] := by
  unfold retrieve at h
  split at h
  · simp at h
  split at h
  · simp at h
  split at h
  · simp at h
  split at h
  · simp at h
  split at h
  · simp at h
  split at h
  · simp at h
  rename_i embedding hemb u hpool vcol hvec frag hfilt limit hlim data hdb
  simp only [Prod.mk.injEq, Except.ok.injEq] at h
  obtain ⟨hr, htr⟩ := h
  subst hr
  subst htr
  refine ⟨rfl, ?_, ?_⟩
  · simp only [List.map_cons, List.map_nil]
    rw [retrieveSql_take]
  · simp only [List.map_cons, List.map_nil, hdb]
    rfl

theorem c8_projection_witness :
    ([⟨"SELECT id, chunk FROM t ORDER BY combined <=> $1 LIMIT $2", [1], 5⟩]
        : List DbCall).length = 1
    ∧ ([⟨"SELECT id, chunk FROM t ORDER BY combined <=> $1 LIMIT $2", [1], 5⟩]
        : List DbCall).map (fun c => c.sql.toList.take 22)
      = ["SELECT id, chunk FROM ".toList]
    ∧ ([⟨"SELECT id, chunk FROM t ORDER BY combined <=> $1 LIMIT $2", [1], 5⟩]
        : List DbCall).map (fun c => (sampleDb c).map (List.map VectorSearchResult.chunk))
      = [.ok (⟨"q", ["hello"]⟩ : RetrievedQuery).documents] :=
  c8_projection sampleConfig sampleDb ⟨5, none⟩ ⟨"q", some [1]⟩ ⟨"q", ["hello"]⟩
    [⟨"SELECT id, chunk FROM t ORDER BY combined <=> $1 LIMIT $2", [1], 5⟩] rfl

/-- Helper: one successful step of `runStmts`. -/
theorem runStmts_cons_ok {σ : Type} (applyStmt : σ → String → Except String σ)
    (s s2 : σ) (stmt : String) (rest : List String)
    (h : applyStmt s stmt = .ok s2) :
    runStmts applyStmt s (stmt :: rest) = runStmts applyStmt s2 rest := by
  simp only [runStmts]
  rw [h]

/-- C3: `setup` runs the create-extension, create-table and
create-ANN-index statements, in that order and nothing else, inside one
transaction: when it succeeds the trace is exactly those three statements
and the committed schema is the result of applying all three in sequence,
each having succeeded; when anything fails the committed schema state is
exactly what it was before the call. -/
theorem c3_setup_transactional {σ : Type} (applyStmt : σ → String → Except String σ)
    (schema : σ) (pool : Except String Unit) (gen_table gen_index : Except String String)
    (res : Except String Unit) (s' : σ) (tr : List String)
    (h : setup applyStmt schema pool gen_table gen_index = (res, s', tr)) :
    (res = .ok () →
      pool = .ok ()
      ∧ gen_table.toOption.isSome = true
      ∧ gen_index.toOption.isSome = true
      ∧ tr = ["CREATE EXTENSION IF NOT EXISTS vector",
              gen_table.toOption.getD "", gen_index.toOption.getD ""]
      ∧ runStmts applyStmt schema tr = .ok s')
    ∧ (¬ res = .ok () → s' = schema) := by
  unfold setup at h
  split at h
  · simp only [Prod.mk.injEq] at h
    refine ⟨fun hok => ?_, fun _ => h.2.1.symm⟩
    rw [← h.1] at hok
    exact absurd hok (by simp)
  split at h
  · simp only [Prod.mk.injEq] at h
    refine ⟨fun hok => ?_, fun _ => h.2.1.symm⟩
    rw [← h.1] at hok
    exact absurd hok (by simp)
  split at h
  · simp only [Prod.mk.injEq] at h
    refine ⟨fun hok => ?_, fun _ => h.2.1.symm⟩
    rw [← h.1] at hok
    exact absurd hok (by simp)
  split at h
  · simp only [Prod.mk.injEq] at h
    refine ⟨fun hok => ?_, fun _ => h.2.1.symm⟩
    rw [← h.1] at hok
    exact absurd hok (by simp)
  split at h
  · simp only [Prod.mk.injEq] at h
    refine ⟨fun hok => ?_, fun _ => h.2.1.symm⟩
    rw [← h.1] at hok
    exact absurd hok (by simp)
  split at h
  · simp only [Prod.mk.injEq] at h
    refine ⟨fun hok => ?_, fun _ => h.2.1.symm⟩
    rw [← h.1] at hok
    exact absurd hok (by simp)
  rename_i x1 pu x2 s1 hext gt tSql x3 s2 htab gi iSql x4 s3 hidx
  simp only [Prod.mk.injEq] at h
  obtain ⟨hres, hs, htr⟩ := h
  refine ⟨fun _ => ?_, fun hok => absurd hres.symm hok⟩
  refine ⟨rfl, rfl, rfl, htr.symm, ?_⟩
  rw [← htr, runStmts_cons_ok applyStmt schema s1 _ _ hext,
    runStmts_cons_ok applyStmt s1 s2 _ _ htab,
    runStmts_cons_ok applyStmt s2 s3 _ _ hidx, hs]
  rfl

theorem c3_setup_witness :
    runStmts (fun (s : Nat) (_ : String) => (.ok (s + 1) : Except String Nat)) 0
      ["CREATE EXTENSION IF NOT EXISTS vector", "T", "I"] = .ok 3 :=
  ((c3_setup_transactional (σ := Nat) (fun s _ => .ok (s + 1)) 0 (.ok ()) (.ok "T")
      (.ok "I") (.ok ()) 3 ["CREATE EXTENSION IF NOT EXISTS vector", "T", "I"] rfl).1
    rfl).2.2.2.2

/-- C7 counterexample: a configuration built without specifying any field
list has the empty field list, not `[Identity, Content]` — the builder's
default for `fields` is the empty vector; `default_fields` is only
installed by `with_vector`/`with_metadata`. The default batch size 50 is
as claimed. -/
theorem c7_default_fields_counterexample :
    PgVectorBuilder.build ⟨none, none, some (some 384), none, none⟩
      = .ok ⟨false, "swiftide_pgv_store", some 384, some 50, []⟩
    ∧ ([] : List FieldConfig) ≠ [FieldConfig.ID, FieldConfig.Chunk] :=
  ⟨rfl, by decide⟩

/-- C7 amended: a configuration built without specifying any field list
has the empty field list and default batch size 50; the
`[Identity, Content]` default list is what `with_vector`/`with_metadata`
install when first called on a builder whose field list is still unset. -/
theorem c7_defaults_amended (b : PgVectorBuilder) (cfg : PgVector)
    (v : VectorConfig) (m : MetadataConfig)
    (hfields : b.fields = none) (hbatch : b.batch_size = none)
    (hbuild : b.build = .ok cfg) :
    cfg.fields = []
    ∧ cfg.batch_size = some 50
    ∧ PgVectorBuilder.default_fields = [FieldConfig.ID, FieldConfig.Chunk]
    ∧ (b.with_vector v).fields
        = some [FieldConfig.ID, FieldConfig.Chunk, FieldConfig.Vector v]
    ∧ (b.with_metadata m).fields
        = some [FieldConfig.ID, FieldConfig.Chunk, FieldConfig.Metadata m] := by
  unfold PgVectorBuilder.build at hbuild
  cases hvs : b.vector_size with
  | none =>
    rw [hvs] at hbuild
    simp at hbuild
  | some vs =>
    rw [hvs] at hbuild
    simp only [Except.ok.injEq] at hbuild
    subst hbuild
    refine ⟨by rw [hfields]; rfl, by rw [hbatch]; rfl, rfl, ?_, ?_⟩
    · unfold PgVectorBuilder.with_vector
      rw [hfields]
      rfl
    · unfold PgVectorBuilder.with_metadata
      rw [hfields]
      rfl

theorem c7_defaults_amended_witness :
    (⟨false, "swiftide_pgv_store", some 1, some 50, []⟩ : PgVector).fields = []
    ∧ (⟨false, "swiftide_pgv_store", some 1, some 50, []⟩ : PgVector).batch_size = some 50
    ∧ PgVectorBuilder.default_fields = [FieldConfig.ID, FieldConfig.Chunk]
    ∧ ((⟨none, none, some (some 1), none, none⟩ : PgVectorBuilder).with_vector
          ⟨"Combined", none⟩).fields
        = some [FieldConfig.ID, FieldConfig.Chunk, FieldConfig.Vector ⟨"Combined", none⟩]
    ∧ ((⟨none, none, some (some 1), none, none⟩ : PgVectorBuilder).with_metadata
          ⟨"filter"⟩).fields
        = some [FieldConfig.ID, FieldConfig.Chunk, FieldConfig.Metadata ⟨"filter"⟩] :=
  c7_defaults_amended ⟨none, none, some (some 1), none, none⟩
    ⟨false, "swiftide_pgv_store", some 1, some 50, []⟩
    ⟨"Combined", none⟩ ⟨"filter"⟩ rfl rfl rfl

/-- Helper: once the builder's field list is set, every later builder
call only appends to it. -/
theorem applyCalls_fields_some (calls : List BuilderCall) :
    ∀ (b : PgVectorBuilder) (l : List FieldConfig), b.fields = some l →
      (applyCalls b calls).fields = some (l ++ calls.map BuilderCall.toField) := by
  induction calls with
  | nil =>
    intro b l hb
    simpa [applyCalls] using hb
  | cons c rest ih =>
    intro b l hb
    have hstep : (applyCall b c).fields = some (l ++ [c.toField]) := by
      cases c with
      | vector v =>
        simp [applyCall, PgVectorBuilder.with_vector, hb, BuilderCall.toField]
      | metadata m =>
        simp [applyCall, PgVectorBuilder.with_metadata, hb, BuilderCall.toField]
    have := ih (applyCall b c) (l ++ [c.toField]) hstep
    simpa [applyCalls, List.foldl_cons, List.append_assoc] using this

/-- C10: any nonempty sequence of `with_vector`/`with_metadata` calls on
the default builder yields a field list that starts with the identity and
content fields and then lists the added vector/metadata fields in exactly
call order — nothing is ever removed or reordered. -/
theorem c10_builder_order (calls : List BuilderCall) (h : calls ≠ []) :
    (applyCalls PgVector.builder calls).fields
      = some (FieldConfig.ID :: FieldConfig.Chunk :: calls.map BuilderCall.toField) := by
  cases calls with
  | nil => exact absurd rfl h
  | cons c rest =>
    have hstep : (applyCall PgVector.builder c).fields
        = some (PgVectorBuilder.default_fields ++ [c.toField]) := by
      cases c with
      | vector v =>
        simp [applyCall, PgVectorBuilder.with_vector, PgVector.builder, BuilderCall.toField]
      | metadata m =>
        simp [applyCall, PgVectorBuilder.with_metadata, PgVector.builder, BuilderCall.toField]
    have := applyCalls_fields_some rest (applyCall PgVector.builder c)
      (PgVectorBuilder.default_fields ++ [c.toField]) hstep
    calc (applyCalls PgVector.builder (c :: rest)).fields
        = (applyCalls (applyCall PgVector.builder c) rest).fields := rfl
      _ = some ((PgVectorBuilder.default_fields ++ [c.toField])
            ++ rest.map BuilderCall.toField) := this
      _ = some (FieldConfig.ID :: FieldConfig.Chunk
            :: (c :: rest).map BuilderCall.toField) := by
          simp [PgVectorBuilder.default_fields]

theorem c10_builder_order_witness :
    (applyCalls PgVector.builder
        [BuilderCall.vector ⟨"Combined", none⟩, BuilderCall.metadata ⟨"filter"⟩]).fields
      = some (FieldConfig.ID :: FieldConfig.Chunk
          :: ([BuilderCall.vector ⟨"Combined", none⟩,
               BuilderCall.metadata ⟨"filter"⟩].map BuilderCall.toField)) :=
  c10_builder_order
    [BuilderCall.vector ⟨"Combined", none⟩, BuilderCall.metadata ⟨"filter"⟩]
    (by decide)

end Swiftide
